import Mathlib

/-!
Verification development for the ROS-message-to-ASN.1 translator
(src/scripts/rosmsg_to_asn1.py).  The script's pure translation core is
shallowly embedded below: Python functions become Lean functions, operations
that can raise an uncaught Python exception (KeyError, IndexError, ValueError)
return Option, and the in-place mutation of the slots list performed by
process_msg is made explicit by returning the final state of that list.
-/

set_option maxRecDepth 4000

namespace RosToAsn1

/-! Section: Python string primitives used by the script -/

/-- Python str.split(sep) for a one-character separator: splitting the empty
string yields [""], and separators at the ends produce empty pieces. -/
def splitCharList (sep : Char) : List Char → List (List Char)
  | [] => [[]]
  | c :: rest =>
    let r := splitCharList sep rest
    if c = sep then [] :: r
    else
      match r with
      | h :: t => (c :: h) :: t
      | [] => [[c]]

/-- Python s.split(sep) wrapped for String. -/
def pySplit (sep : Char) (s : String) : List String :=
  (splitCharList sep s.data).map (fun cs => String.mk cs)

/-- Python s.replace("_", "-"): every underscore becomes a hyphen. -/
def underscoresToHyphens (s : String) : String :=
  String.mk (s.data.map (fun c => if c = '_' then '-' else c))

/-- Python s.lower() restricted to ASCII, which is all the script feeds it. -/
def pyLower (s : String) : String :=
  String.mk (s.data.map Char.toLower)

/-- Value of a nonempty digit string; none when a non-digit occurs. -/
def digitsVal (ds : List Char) : Option Nat :=
  ds.foldl
    (fun acc c => acc.bind (fun n => if c.isDigit then some (n * 10 + (c.toNat - 48)) else none))
    (some 0)

/-- Python int(s): strip whitespace, optional sign, then a nonempty digit run;
anything else raises ValueError, modelled as none. -/
def pyInt (s : String) : Option Int :=
  let cs := s.data.dropWhile (fun c => c.isWhitespace)
  let cs := ((cs.reverse.dropWhile (fun c => c.isWhitespace)).reverse)
  match cs with
  | '-' :: ds => if ds.isEmpty then none else (digitsVal ds).map (fun n => -(n : Int))
  | '+' :: ds => if ds.isEmpty then none else (digitsVal ds).map (fun n => (n : Int))
  | ds => if ds.isEmpty then none else (digitsVal ds).map (fun n => (n : Int))

/-- Python s[a:b] slicing with possibly negative bounds, clamped to the string. -/
def pySlice (cs : List Char) (a b : Int) : List Char :=
  let n : Int := cs.length
  let lo := if a < 0 then max 0 (n + a) else min a n
  let hi := if b < 0 then max 0 (n + b) else min b n
  (cs.take hi.toNat).drop lo.toNat

/-! Section: Static tables of the script (lines 16-52 of the source, with the
source's exact key spellings, including the inconsistent ones). -/

/-- ros_primitive_type: note that byte and char are absent. -/
def ros_primitive_type : List String :=
  ["bool", "int8", "uint8", "int16", "uint16", "int32", "uint32", "int64",
   "uint64", "float32", "float64", "string", "time", "duration"]

/-- primitive_types_map, in source order. -/
def primitive_types_map : List (String × String) :=
  [("bool", "T-Boolean"), ("int8", "T-Int8"), ("uint8", "T-UInt8"),
   ("int16", "T-Int16"), ("uint16", "T-UInt16"), ("int32", "T-Int32"),
   ("uint32", "T-UInt32"), ("int64", "T-Int64"), ("uint64", "T-UInt64"),
   ("float32", "T-Float"), ("float64", "T-Double"), ("string", "T-String"),
   ("time", "Time"), ("duration", "Duration"), ("byte", "T-Int8"),
   ("char", "T-Uint8")]

/-- libraries, built exactly as the three loops of the source build it
(keeping the spellings T_Boolean, T-Uint8, T-Uint16, T-Uint64 as written). -/
def libraries : List (String × String) :=
  (["T_Boolean", "T-Int8", "T-Uint8", "T-Int32", "T-UInt32"].map
      (fun k => (k, "TASTE-BasicTypes"))) ++
  (["T-Int16", "T-Uint16", "T-Int64", "T-Uint64", "T-Float", "T-Double",
    "T-String"].map (fun k => (k, "TASTE-ExtendedTypes"))) ++
  (["Time", "Duration"].map (fun k => (k, "Time-Types")))

/-! Section: find_field_type (source lines 176-200) -/

/-- find_field_type: returns (base type, field kind, array length).
A missing character after "[" (IndexError) or a bracket content that
int() rejects (ValueError) is an uncaught exception, modelled as none. -/
def find_field_type (slot_type : String) : Option (String × String × Int) :=
  let cs := slot_type.data
  match cs.findIdx? (fun c => c = '[') with
  | none => some (slot_type, "simple", 1)
  | some idx =>
    match cs.get? (idx + 1) with
    | none => none
    | some c =>
      if c = ']' then some (String.mk (cs.take idx), "variable-length", 1)
      else
        let idx_end : Int := match cs.findIdx? (fun d => d = ']') with
          | some j => (j : Int)
          | none => -1
        match pyInt (String.mk (pySlice cs ((idx : Int) + 1) idx_end)) with
        | none => none
        | some len => some (String.mk (cs.take idx), "fixed-length", len)

/-! Section: find_ASN1_type (source lines 203-227) -/

/-- find_ASN1_type: maps a base ROS type to its ASN.1 type, library and a
primitive flag.  A failing dict lookup (KeyError) or the access
composed_type[1] on a one-element split (IndexError) is modelled as none. -/
def find_ASN1_type (slot_type : String) : Option (String × String × Bool) :=
  if slot_type ∈ ros_primitive_type then
    match primitive_types_map.lookup slot_type with
    | none => none
    | some asn1_type =>
      match libraries.lookup asn1_type with
      | none => none
      | some lib_asn => some (asn1_type, lib_asn, true)
  else
    match pySplit '/' slot_type with
    | _ :: second :: _ => some (second, second ++ "-Types", false)
    | _ => none

/-! Section: Import library aggregation (source lines 230-247 and 291-295) -/

/-- The import_libraries dict of process_msg as an insertion-ordered
association list: one entry per library, each holding the types required from
it in first-insertion order.  addImport performs the add of lines 291-295:
a new type is appended to its library's list unless already present, and a new
library is appended at the end. -/
def addImportEntry (lib ty : String) (p : String × List String) : String × List String :=
  if p.1 = lib then (p.1, if ty ∈ p.2 then p.2 else p.2 ++ [ty]) else p

def addImport (ils : List (String × List String)) (lib ty : String) :
    List (String × List String) :=
  if ils.any (fun p => p.1 = lib) then ils.map (addImportEntry lib ty)
  else ils ++ [(lib, [ty])]

/-- generate_libraries_string: per library, its types comma-joined, then
" FROM <library> ", libraries in dict (insertion) order; closed by ";\n". -/
def generate_libraries_string (import_libraries : List (String × List String)) : String :=
  "IMPORTS " ++
    String.join (import_libraries.map
      (fun p => String.intercalate ", " p.2 ++ " FROM " ++ p.1 ++ " ")) ++
    ";" ++ "\n"

/-! Section: process_msg translation core (source lines 276-346)

The resolution steps of process_msg (get_message_package,
get_python_msg_module, get_message_dict, lines 258-274) are external
collaborators; the core below receives the resolved message name and the
record's (slot name, slot type) pairs, which the source keeps as the two
parallel equal-length lists msg_dict["slots"] and msg_dict["slot_types"]. -/

/-- State of the first per-field loop (source lines 288-300): the
import_libraries dict, one row (slot name, field kind, length, ASN.1 type)
per field in order, and the accumulated msg_deps list. -/
structure LoopState where
  imports : List (String × List String)
  rows : List (String × String × Int × String)
  deps : List String
  deriving DecidableEq

def initLoopState : LoopState := ⟨[], [], []⟩

/-- The per-field loop of lines 288-300.  A field whose find_field_type or
find_ASN1_type raises aborts the whole call, modelled as none. -/
def fieldLoop : List (String × String) → LoopState → Option LoopState
  | [], st => some st
  | (name, slot_type) :: rest, st =>
    match find_field_type slot_type with
    | none => none
    | some (base, ftype, length) =>
      match find_ASN1_type base with
      | none => none
      | some (asn1, lib, prim) =>
        fieldLoop rest
          { imports := addImport st.imports lib asn1,
            rows := st.rows ++ [(name, ftype, length, asn1)],
            deps := st.deps ++ (if prim then [] else [base]) }

/-- Module header of line 276. -/
def moduleHeader (msg_name : String) : String :=
  msg_name ++ "-Types DEFINITIONS ::=\nBEGIN\n"

/-- One auxiliary definition of the fixed-length loop (lines 308-311). -/
def fixedAuxDef (name : String) (len : Int) (ty : String) : String :=
  "L" ++ underscoresToHyphens name ++ "::=" ++ " SEQUENCE (SIZE(0.." ++
    Int.repr len ++ ")) OF " ++ ty ++ "\n"

/-- One auxiliary definition of the variable-length loop (lines 315-318). -/
def varAuxDef (name ty : String) : String :=
  "V" ++ underscoresToHyphens name ++ "::=" ++ " SEQUENCE (SIZE(0..256)) OF " ++
    ty ++ "\n"

/-- Text emitted by the fixed-length loop: one definition per fixed-length
row, in row (field) order. -/
def fixedDefsString (rows : List (String × String × Int × String)) : String :=
  String.join (rows.filterMap
    (fun r => if r.2.1 = "fixed-length" then some (fixedAuxDef r.1 r.2.2.1 r.2.2.2) else none))

/-- Text emitted by the variable-length loop, in row (field) order. -/
def varDefsString (rows : List (String × String × Int × String)) : String :=
  String.join (rows.filterMap
    (fun r => if r.2.1 = "variable-length" then some (varAuxDef r.1 r.2.2.2) else none))

/-- Array rewriting of lines 308-320 as it acts on one row: a fixed-length or
variable-length field becomes "simple" and its ASN.1 type becomes the
synthesized L/V name. -/
def rewriteRow : (String × String × Int × String) → (String × String × Int × String)
  | (n, ft, len, ty) =>
    if ft = "fixed-length" then (n, "simple", len, "L" ++ underscoresToHyphens n)
    else if ft = "variable-length" then (n, "simple", len, "V" ++ underscoresToHyphens n)
    else (n, ft, len, ty)

/-- Field-name collision handling of lines 324-327 and 336-339, applied in
source order: first the reserved word check (slots[i] == "type" appends
"-<asn1 type>"), then the case-insensitive equality check appends "-field".
The second check reads the name as updated by the first, exactly as the
in-place slots[i] updates do. -/
def renameSlot (name ty : String) : String :=
  let n1 := if name = "type" then name ++ "-" ++ ty else name
  if pyLower n1 = pyLower ty then n1 ++ "-field" else n1

/-- Record body emission (lines 322-343) on the rewritten rows, returning the
body text together with the final value of the slots list: the source renames
by assigning slots[i] in place, so the returned list is the state of
msg_dict["slots"] (an alias of the message class's slot list) after the call. -/
def bodyAndSlots (msg_name : String) (rows2 : List (String × String × Int × String)) :
    String × List String :=
  match rows2 with
  | [(n, ft, _, ty)] =>
    if ft = "simple" then
      let n2 := renameSlot n ty
      (msg_name ++ "::=\nSEQUENCE\n\x7b\n" ++ "\t" ++ underscoresToHyphens n2 ++
        "\t" ++ ty ++ "\n\x7d\n", [n2])
    else ("", [n])
  | _ =>
    (msg_name ++ "::=\nSEQUENCE\n\x7b\n" ++
      String.intercalate ",\n" (rows2.filterMap
        (fun r => if r.2.1 = "simple" then
            some ("\t" ++ underscoresToHyphens (renameSlot r.1 r.2.2.2) ++ "\t" ++ r.2.2.2)
          else none)) ++
      "\n\x7d\n",
     rows2.map (fun r => if r.2.1 = "simple" then renameSlot r.1 r.2.2.2 else r.1))

/-- Result of the translation core: the module text, the msg_deps list as
returned, and the final state of the (aliased, in-place updated) slots list. -/
structure TranslationResult where
  text : String
  deps : List String
  slotsAfter : List String
  deriving DecidableEq

/-- The translation core of process_msg (lines 276-346): header, imports
from the per-field loop, fixed-length auxiliary definitions, variable-length
auxiliary definitions, record body, and the module terminator END. -/
def process_core (msg_name : String) (fields : List (String × String)) :
    Option TranslationResult :=
  match fieldLoop fields initLoopState with
  | none => none
  | some st =>
    let bs := bodyAndSlots msg_name (st.rows.map rewriteRow)
    some { text := moduleHeader msg_name ++ generate_libraries_string st.imports ++
             fixedDefsString st.rows ++ varDefsString st.rows ++ bs.1 ++ "END",
           deps := st.deps,
           slotsAfter := bs.2 }

/-! Section: The worklist loop of main (source lines 396-413) and ErrorCodes -/

namespace ErrorCodes

def ARGS_ERROR : Nat := 1

def SYSCMD_ERROR : Nat := 2

def OK : Nat := 0

end ErrorCodes

/-- Outcome of the loop of main: normal fall-through (process exit status 0)
with the final generated_msgs list, or sys.exit with an error code at the
first failing message, recording the failing name, the still-pending names
and the messages generated (and saved) so far. -/
inductive RunResult where
  | ok (generated : List String)
  | err (code : Nat) (failed : String) (remaining : List String) (generated : List String)
  deriving DecidableEq

def RunResult.generated : RunResult → List String
  | .ok g => g
  | .err _ _ _ g => g

def RunResult.exitCode : RunResult → Nat
  | .ok _ => ErrorCodes.OK
  | .err c _ _ _ => c

/-- The dependency enqueueing of lines 409-413: each dep is appended to the
pending list unless already pending or already generated; the membership
tests run against the list as it grows, exactly as the source's loop does. -/
def enqueueDeps (deps pending done : List String) : List String :=
  deps.foldl (fun p dep => if dep ∈ p ∨ dep ∈ done then p else p ++ [dep]) pending

/-- The while loop of main (lines 400-413) over an abstract process_msg
result function proc, with fuel to make the recursion structural: none means
the fuel ran out before the loop finished.  A failing message triggers
sys.exit(ErrorCodes.ARGS_ERROR.value) at once; otherwise the message is
saved, recorded in generated_msgs, and its deps enqueued. -/
def runWorklist (proc : String → Option (String × List String)) :
    Nat → List String → List String → Option RunResult
  | _, [], generated => some (.ok generated)
  | 0, _ :: _, _ => none
  | fuel + 1, msg :: rest, generated =>
    match proc msg with
    | none => some (.err ErrorCodes.ARGS_ERROR msg rest generated)
    | some (_, deps) =>
      runWorklist proc fuel (enqueueDeps deps rest (generated ++ [msg]))
        (generated ++ [msg])

/-- The cyclic two-record dependency relation of the spec's example:
A depends on B and B depends on A. -/
def procAB : String → Option (String × List String)
  | "A" => some ("A-module", ["B"])
  | "B" => some ("B-module", ["A"])
  | _ => none

/-! Section: Helper lemmas about the worklist -/

theorem enqueueDeps_cons (dep : String) (deps p d : List String) :
    enqueueDeps (dep :: deps) p d =
      enqueueDeps deps (if dep ∈ p ∨ dep ∈ d then p else p ++ [dep]) d := rfl

/-- A name already pending or already generated is never enqueued again: its
multiplicity in the pending list is unchanged by enqueueDeps. -/
theorem enqueueDeps_count (deps : List String) :
    ∀ (p d : List String) (x : String), x ∈ p ∨ x ∈ d →
      (enqueueDeps deps p d).count x = p.count x := by
  induction deps with
  | nil => intro p d x _; rfl
  | cons dep deps ih =>
    intro p d x hx
    rw [enqueueDeps_cons]
    by_cases hdep : dep ∈ p ∨ dep ∈ d
    · rw [if_pos hdep]; exact ih p d x hx
    · rw [if_neg hdep]
      push_neg at hdep
      have hx2 : x ∈ p ++ [dep] ∨ x ∈ d := by
        cases hx with
        | inl h => exact Or.inl (List.mem_append_left _ h)
        | inr h => exact Or.inr h
      have hxdep : x ≠ dep := by
        intro he
        cases hx with
        | inl h => exact hdep.1 (he ▸ h)
        | inr h => exact hdep.2 (he ▸ h)
      rw [ih (p ++ [dep]) d x hx2, List.count_append]
      have : List.count x [dep] = 0 := by
        rw [List.count_eq_zero]
        simp only [List.mem_singleton]
        exact hxdep
      rw [this, Nat.add_zero]

/-- enqueueDeps preserves the no-duplicates invariant: if the pending list is
duplicate-free and disjoint from done, so is the result. -/
theorem enqueueDeps_nodup (deps : List String) :
    ∀ (p d : List String), p.Nodup → (∀ x ∈ p, x ∉ d) →
      (enqueueDeps deps p d).Nodup ∧ ∀ x ∈ enqueueDeps deps p d, x ∉ d := by
  induction deps with
  | nil => intro p d hp hdisj; exact ⟨hp, hdisj⟩
  | cons dep deps ih =>
    intro p d hp hdisj
    rw [enqueueDeps_cons]
    by_cases hdep : dep ∈ p ∨ dep ∈ d
    · rw [if_pos hdep]; exact ih p d hp hdisj
    · rw [if_neg hdep]
      push_neg at hdep
      refine ih (p ++ [dep]) d ?_ ?_
      · rw [List.nodup_append]
        exact ⟨hp, List.nodup_singleton dep,
          fun x hx hx2 => hdep.1 ((List.mem_singleton.1 hx2) ▸ hx)⟩
      · intro x hx
        rcases List.mem_append.1 hx with h | h
        · exact hdisj x h
        · exact (List.mem_singleton.1 h) ▸ hdep.2

/-- Every terminating run of the worklist started from a duplicate-free
pending list disjoint from a duplicate-free done list produces a
duplicate-free generated list: no record identifier is translated twice. -/
theorem runWorklist_generated_nodup (proc : String → Option (String × List String)) :
    ∀ (fuel : Nat) (pending done : List String) (r : RunResult),
      pending.Nodup → done.Nodup → (∀ x ∈ pending, x ∉ done) →
      runWorklist proc fuel pending done = some r → r.generated.Nodup := by
  intro fuel
  induction fuel with
  | zero =>
    intro pending done r hp hd hdisj h
    cases pending with
    | nil =>
      simp only [runWorklist, Option.some.injEq] at h
      rw [← h]
      exact hd
    | cons msg rest => simp [runWorklist] at h
  | succ n ih =>
    intro pending done r hp hd hdisj h
    cases pending with
    | nil =>
      simp only [runWorklist, Option.some.injEq] at h
      rw [← h]
      exact hd
    | cons msg rest =>
      simp only [runWorklist] at h
      cases hpm : proc msg with
      | none =>
        rw [hpm] at h
        simp only [Option.some.injEq] at h
        rw [← h]
        exact hd
      | some pr =>
        obtain ⟨txt, deps⟩ := pr
        rw [hpm] at h
        have hmsg_rest : msg ∉ rest := (List.nodup_cons.1 hp).1
        have hrest : rest.Nodup := (List.nodup_cons.1 hp).2
        have hmsgd : msg ∉ done := hdisj msg (List.mem_cons_self msg rest)
        have hd2 : (done ++ [msg]).Nodup := by
          rw [List.nodup_append]
          exact ⟨hd, List.nodup_singleton msg,
            fun x hx hx2 => hmsgd ((List.mem_singleton.1 hx2) ▸ hx)⟩
        have hdisj2 : ∀ x ∈ rest, x ∉ done ++ [msg] := by
          intro x hx hmem
          rcases List.mem_append.1 hmem with hc | hc
          · exact hdisj x (List.mem_cons_of_mem msg hx) hc
          · exact hmsg_rest ((List.mem_singleton.1 hc) ▸ hx)
        obtain ⟨hpn, hdisj3⟩ := enqueueDeps_nodup deps rest (done ++ [msg]) hrest hdisj2
        exact ih _ _ r hpn hd2 hdisj3 h

/-- When process_msg succeeds on every name, a terminating run never takes
the sys.exit branch: it falls through the loop, i.e. exit status 0. -/
theorem runWorklist_ok_of_total (proc : String → Option (String × List String))
    (htotal : ∀ m, (proc m).isSome = true) :
    ∀ (fuel : Nat) (pending generated : List String) (r : RunResult),
      runWorklist proc fuel pending generated = some r →
      r.exitCode = ErrorCodes.OK ∧ ∃ g, r = RunResult.ok g := by
  intro fuel
  induction fuel with
  | zero =>
    intro pending generated r h
    cases pending with
    | nil =>
      simp only [runWorklist, Option.some.injEq] at h
      exact ⟨by rw [← h]; rfl, generated, h.symm⟩
    | cons msg rest => simp [runWorklist] at h
  | succ n ih =>
    intro pending generated r h
    cases pending with
    | nil =>
      simp only [runWorklist, Option.some.injEq] at h
      exact ⟨by rw [← h]; rfl, generated, h.symm⟩
    | cons msg rest =>
      simp only [runWorklist] at h
      cases hpm : proc msg with
      | none => have := htotal msg; rw [hpm] at this; simp at this
      | some pr =>
        obtain ⟨txt, deps⟩ := pr
        rw [hpm] at h
        exact ih _ _ r h

/-! Section: Helper lemmas about the translation core -/

/-- The non-primitive base types of a field list, in field order, with
multiplicity: the contribution of each field to msg_deps. -/
def nonPrimitiveBaseTypes (fields : List (String × String)) : List String :=
  fields.filterMap (fun f =>
    (find_field_type f.2).bind (fun r =>
      (find_ASN1_type r.1).bind (fun a => if a.2.2 then none else some r.1)))

/-- The per-field loop appends exactly the non-primitive base types, in field
order, to whatever deps it started with; there is no deduplication. -/
theorem fieldLoop_deps :
    ∀ (fields : List (String × String)) (st st2 : LoopState),
      fieldLoop fields st = some st2 →
      st2.deps = st.deps ++ nonPrimitiveBaseTypes fields := by
  intro fields
  induction fields with
  | nil =>
    intro st st2 h
    simp only [fieldLoop, Option.some.injEq] at h
    rw [← h]
    simp [nonPrimitiveBaseTypes]
  | cons f rest ih =>
    intro st st2 h
    obtain ⟨name, slot_type⟩ := f
    simp only [fieldLoop] at h
    split at h
    · cases h
    · rename_i r base ftype length hft
      split at h
      · cases h
      · rename_i a asn1 lib prim hat
        rw [ih _ _ h]
        simp only [nonPrimitiveBaseTypes, List.filterMap_cons, hft, Option.bind_some, hat]
        cases prim with
        | true => simp [hat, List.append_assoc]
        | false => simp [hat, List.append_assoc]

/-- Adding the same (library, type) pair twice is the same as adding it once:
a type appears at most once per library in the import map. -/
theorem addImport_idem (ils : List (String × List String)) (lib ty : String) :
    addImport (addImport ils lib ty) lib ty = addImport ils lib ty := by
  have hg1 : ∀ p : String × List String, (addImportEntry lib ty p).1 = p.1 := by
    intro p
    by_cases hp : p.1 = lib <;> simp [addImportEntry, hp]
  have hgg : ∀ p : String × List String,
      addImportEntry lib ty (addImportEntry lib ty p) = addImportEntry lib ty p := by
    intro p
    by_cases hp : p.1 = lib
    · by_cases hty : ty ∈ p.2
      · simp [addImportEntry, hp, hty]
      · simp [addImportEntry, hp, hty]
    · simp [addImportEntry, hp]
  unfold addImport
  by_cases h : ils.any (fun p => decide (p.1 = lib)) = true
  · rw [if_pos h]
    have hmap : (ils.map (addImportEntry lib ty)).any (fun p => decide (p.1 = lib)) = true := by
      rw [List.any_eq_true] at h ⊢
      obtain ⟨p0, hmem, hp0⟩ := h
      exact ⟨addImportEntry lib ty p0, List.mem_map_of_mem _ hmem, by rw [hg1 p0]; exact hp0⟩
    rw [if_pos hmap, List.map_map]
    exact List.map_congr_left (fun p _ => hgg p)
  · rw [if_neg h]
    have hnot : ∀ p ∈ ils, p.1 ≠ lib := by
      intro p hp he
      exact h (List.any_eq_true.2 ⟨p, hp, by rw [he]; simp⟩)
    have hmap2 : (ils ++ [(lib, [ty])]).any (fun p => decide (p.1 = lib)) = true := by
      rw [List.any_eq_true]
      exact ⟨(lib, [ty]), List.mem_append_right _ (List.mem_singleton.2 rfl), by simp⟩
    rw [if_pos hmap2, List.map_append]
    have h1 : ils.map (addImportEntry lib ty) = ils := by
      have hid : ∀ p ∈ ils, addImportEntry lib ty p = id p := by
        intro p hp
        simp [addImportEntry, hnot p hp]
      rw [List.map_congr_left hid, List.map_id]
    rw [h1]
    simp [addImportEntry]

/-! Section: Claim theorems -/

/-- Claim C1 is contradicted by the code: of the sixteen claimed primitive
type names only ten map successfully into the three-library partition.
bool, uint8, uint16 and uint64 fail with a KeyError because the libraries
table spells their keys T_Boolean, T-Uint8, T-Uint16 and T-Uint64 while
primitive_types_map produces T-Boolean, T-UInt8, T-UInt16 and T-UInt64;
byte and char are absent from ros_primitive_type, fall into the
non-primitive branch, and fail with an IndexError on composed_type[1]. -/
theorem c1_primitive_partition_eval :
    ["bool", "int8", "uint8", "int16", "uint16", "int32", "uint32", "int64",
     "uint64", "float32", "float64", "string", "time", "duration", "byte",
     "char"].map find_ASN1_type =
      [none,
       some ("T-Int8", "TASTE-BasicTypes", true),
       none,
       some ("T-Int16", "TASTE-ExtendedTypes", true),
       none,
       some ("T-Int32", "TASTE-BasicTypes", true),
       some ("T-UInt32", "TASTE-BasicTypes", true),
       some ("T-Int64", "TASTE-ExtendedTypes", true),
       none,
       some ("T-Float", "TASTE-ExtendedTypes", true),
       some ("T-Double", "TASTE-ExtendedTypes", true),
       some ("T-String", "TASTE-ExtendedTypes", true),
       some ("Time", "Time-Types", true),
       some ("Duration", "Time-Types", true),
       none,
       none] := by decide

/-- Claim C2 counterexample: the membership check of main guards only the
dependency enqueueing, not the initial request list, so a duplicated initial
request ["A", "A"] makes the loop translate A twice (generated_msgs ends as
["A", "A"], which has a duplicate). -/
theorem c2_worklist_counterexample :
    runWorklist (fun s => if s = "A" then some ("t", []) else none) 3 ["A", "A"] [] =
      some (.ok ["A", "A"]) ∧
    ¬ (["A", "A"] : List String).Nodup := by decide

/-- Claim C2 (amended): provided the initial pending list is duplicate-free
and disjoint from the duplicate-free done list (as holds when main is seeded
with distinct command-line names and an empty generated_msgs), every
terminating run yields a duplicate-free generated list, so no record
identifier is translated twice; a dependency already in pending or done is
never re-enqueued (its multiplicity in pending is unchanged); and for the
cyclic dependency relation where A depends on B and B depends on A, the loop
started from ["A"] terminates with exactly one artifact per record,
done = [A, B] and pending empty. -/
theorem c2_worklist_invariant (proc : String → Option (String × List String))
    (fuel : Nat) (pending done : List String) (r : RunResult)
    (hp : pending.Nodup) (hd : done.Nodup) (hdisj : ∀ x ∈ pending, x ∉ done)
    (hrun : runWorklist proc fuel pending done = some r) :
    r.generated.Nodup ∧
    (∀ (deps p d : List String) (x : String), x ∈ p ∨ x ∈ d →
        (enqueueDeps deps p d).count x = p.count x) ∧
    runWorklist procAB 5 ["A"] [] = some (.ok ["A", "B"]) :=
  ⟨runWorklist_generated_nodup proc fuel pending done r hp hd hdisj hrun,
   fun deps p d x hx => enqueueDeps_count deps p d x hx,
   by decide⟩

theorem c2_worklist_invariant_witness :
    runWorklist procAB 5 ["A"] [] = some (.ok ["A", "B"]) :=
  (c2_worklist_invariant procAB 5 ["A"] [] (.ok ["A", "B"]) (by decide) (by decide)
    (by decide) (by decide)).2.2

/-- Claim C3 counterexample: the non-primitive branch of find_ASN1_type takes
composed_type[1], the component after the first slash, not the last
component: "a/b/c" maps to notation type "b", not "c".  Moreover the
dependency list of the translation result is not deduplicated: a record with
two fields of type geometry/Pose reports the dependency twice. -/
theorem c3_counterexample :
    find_ASN1_type "a/b/c" = some ("b", "b-Types", false) ∧
    ("b", "b-Types") ≠ ("c", "c-Types") ∧
    process_core "M" [("p1", "geometry/Pose"), ("p2", "geometry/Pose")] =
      some { text := "M-Types DEFINITIONS ::=\nBEGIN\nIMPORTS Pose FROM Pose-Types ;\nM::=\nSEQUENCE\n\x7b\n\tp1\tPose,\n\tp2\tPose\n\x7d\nEND",
             deps := ["geometry/Pose", "geometry/Pose"],
             slotsAfter := ["p1", "p2"] } ∧
    ¬ (["geometry/Pose", "geometry/Pose"] : List String).Nodup := by decide

/-- Claim C3 (amended): for a non-primitive baseType of the form pkg/name
(exactly one qualifier, so the component after the slash is the last one) the
notation type is name and the library is name ++ "-Types"; the result's
dependency list collects the non-primitive base types in field order with
multiplicity (deduplication happens only at enqueue time in main); and a
record with the single field pose of type geometry/Pose yields dependency
list ["geometry/Pose"] and an import clause referencing Pose-Types. -/
theorem c3_nonprimitive_mapping (t pkg nm : String)
    (hsplit : pySplit '/' t = [pkg, nm]) (hnp : t ∉ ros_primitive_type) :
    find_ASN1_type t = some (nm, nm ++ "-Types", false) ∧
    (∀ (fields : List (String × String)) (st : LoopState),
        fieldLoop fields initLoopState = some st →
        st.deps = nonPrimitiveBaseTypes fields) ∧
    process_core "M" [("pose", "geometry/Pose")] =
      some { text := "M-Types DEFINITIONS ::=\nBEGIN\nIMPORTS Pose FROM Pose-Types ;\nM::=\nSEQUENCE\n\x7b\n\tpose-field\tPose\n\x7d\nEND",
             deps := ["geometry/Pose"],
             slotsAfter := ["pose-field"] } := by
  refine ⟨?_, fun fields st h => by simpa using fieldLoop_deps fields initLoopState st h,
    by decide⟩
  unfold find_ASN1_type
  rw [if_neg hnp, hsplit]

theorem c3_nonprimitive_mapping_witness :
    find_ASN1_type "geometry/Pose" = some ("Pose", "Pose-Types", false) :=
  (c3_nonprimitive_mapping "geometry/Pose" "geometry" "Pose" (by decide) (by decide)).1

/-- Claim C4: find_field_type classifies "int32" as a scalar ("simple"),
"int32[4]" as fixed-length with bound 4 and base "int32", "string[]" as
variable-length with base "string", and fails on "int32[x]" (the uncaught
ValueError of int("x"), modelled as none) instead of coercing. -/
theorem c4_classify_eval :
    find_field_type "int32" = some ("int32", "simple", 1) ∧
    find_field_type "int32[4]" = some ("int32", "fixed-length", 4) ∧
    find_field_type "string[]" = some ("string", "variable-length", 1) ∧
    find_field_type "int32[x]" = none := by decide

/-- Claim C5: the array rewriting turns a fixed-length field into a scalar
("simple") field of the synthesized type L<fieldName> (underscores replaced
by hyphens) and a variable-length field into a scalar field of V<fieldName>;
the record with the single field ("data", "float32[10]") produces an
auxiliary bounded-sequence definition capped at 10 of the float notation
type, a single-field body referencing Ldata, and no dependencies. -/
theorem c5_array_rewrite :
    (∀ (n : String) (len : Int) (ty : String),
        rewriteRow (n, "fixed-length", len, ty) =
          (n, "simple", len, "L" ++ underscoresToHyphens n)) ∧
    (∀ (n : String) (len : Int) (ty : String),
        rewriteRow (n, "variable-length", len, ty) =
          (n, "simple", len, "V" ++ underscoresToHyphens n)) ∧
    process_core "Data" [("data", "float32[10]")] =
      some { text := "Data-Types DEFINITIONS ::=\nBEGIN\nIMPORTS T-Float FROM TASTE-ExtendedTypes ;\nLdata::= SEQUENCE (SIZE(0..10)) OF T-Float\nData::=\nSEQUENCE\n\x7b\n\tdata\tLdata\n\x7d\nEND",
             deps := [],
             slotsAfter := ["data"] } :=
  ⟨fun n len ty => rfl, fun n len ty => rfl, by decide⟩

/-- Claim C6 counterexample: the auxiliary definitions are not emitted in
field order; all fixed-length definitions come first, then all
variable-length ones.  For fields a (variable) before b (fixed) the output
places Lb before Va, not Va before Lb as field order would demand. -/
theorem c6_counterexample :
    process_core "M" [("a", "int32[]"), ("b", "int32[2]")] =
      some { text := "M-Types DEFINITIONS ::=\nBEGIN\nIMPORTS T-Int32 FROM TASTE-BasicTypes ;\nLb::= SEQUENCE (SIZE(0..2)) OF T-Int32\nVa::= SEQUENCE (SIZE(0..256)) OF T-Int32\nM::=\nSEQUENCE\n\x7b\n\ta\tVa,\n\tb\tLb\n\x7d\nEND",
             deps := [],
             slotsAfter := ["a", "b"] } ∧
    "M-Types DEFINITIONS ::=\nBEGIN\nIMPORTS T-Int32 FROM TASTE-BasicTypes ;\nLb::= SEQUENCE (SIZE(0..2)) OF T-Int32\nVa::= SEQUENCE (SIZE(0..256)) OF T-Int32\nM::=\nSEQUENCE\n\x7b\n\ta\tVa,\n\tb\tLb\n\x7d\nEND" ≠
      "M-Types DEFINITIONS ::=\nBEGIN\nIMPORTS T-Int32 FROM TASTE-BasicTypes ;\nVa::= SEQUENCE (SIZE(0..256)) OF T-Int32\nLb::= SEQUENCE (SIZE(0..2)) OF T-Int32\nM::=\nSEQUENCE\n\x7b\n\ta\tVa,\n\tb\tLb\n\x7d\nEND" := by
  decide

/-- Claim C6 (amended): every successful translation is, in order, the module
header, the import declarations built from the insertion-ordered import map
(one clause per library, types comma-joined; adding a type twice to a library
is a no-op), the fixed-length auxiliary definitions in field order, then the
variable-length auxiliary definitions in field order, the record body, and
the module terminator END; demonstrated exactly on a record mixing a
variable-length field, a fixed-length field, two primitive libraries and a
non-primitive import. -/
theorem c6_output_layout (msg_name : String) (fields : List (String × String))
    (r : TranslationResult) (h : process_core msg_name fields = some r) :
    (∃ st : LoopState, fieldLoop fields initLoopState = some st ∧
        r.text = moduleHeader msg_name ++ generate_libraries_string st.imports ++
          fixedDefsString st.rows ++ varDefsString st.rows ++
          (bodyAndSlots msg_name (st.rows.map rewriteRow)).1 ++ "END") ∧
    (∀ (ils : List (String × List String)) (lib ty : String),
        addImport (addImport ils lib ty) lib ty = addImport ils lib ty) ∧
    process_core "M2" [("a", "int32[]"), ("b", "int32[2]"), ("c", "uint32"), ("d", "geometry/Pose")] =
      some { text := "M2-Types DEFINITIONS ::=\nBEGIN\nIMPORTS T-Int32, T-UInt32 FROM TASTE-BasicTypes Pose FROM Pose-Types ;\nLb::= SEQUENCE (SIZE(0..2)) OF T-Int32\nVa::= SEQUENCE (SIZE(0..256)) OF T-Int32\nM2::=\nSEQUENCE\n\x7b\n\ta\tVa,\n\tb\tLb,\n\tc\tT-UInt32,\n\td\tPose\n\x7d\nEND",
             deps := ["geometry/Pose"],
             slotsAfter := ["a", "b", "c", "d"] } := by
  refine ⟨?_, addImport_idem, by decide⟩
  unfold process_core at h
  split at h
  · cases h
  · rename_i o st hfl
    refine ⟨st, hfl, ?_⟩
    cases h
    rfl

theorem c6_output_layout_witness :
    ∃ st : LoopState,
      fieldLoop [("a", "int32[]"), ("b", "int32[2]"), ("c", "uint32"), ("d", "geometry/Pose")]
          initLoopState = some st ∧
      "M2-Types DEFINITIONS ::=\nBEGIN\nIMPORTS T-Int32, T-UInt32 FROM TASTE-BasicTypes Pose FROM Pose-Types ;\nLb::= SEQUENCE (SIZE(0..2)) OF T-Int32\nVa::= SEQUENCE (SIZE(0..256)) OF T-Int32\nM2::=\nSEQUENCE\n\x7b\n\ta\tVa,\n\tb\tLb,\n\tc\tT-UInt32,\n\td\tPose\n\x7d\nEND" =
        moduleHeader "M2" ++ generate_libraries_string st.imports ++
          fixedDefsString st.rows ++ varDefsString st.rows ++
          (bodyAndSlots "M2" (st.rows.map rewriteRow)).1 ++ "END" :=
  (c6_output_layout "M2" [("a", "int32[]"), ("b", "int32[2]"), ("c", "uint32"), ("d", "geometry/Pose")]
    { text := "M2-Types DEFINITIONS ::=\nBEGIN\nIMPORTS T-Int32, T-UInt32 FROM TASTE-BasicTypes Pose FROM Pose-Types ;\nLb::= SEQUENCE (SIZE(0..2)) OF T-Int32\nVa::= SEQUENCE (SIZE(0..256)) OF T-Int32\nM2::=\nSEQUENCE\n\x7b\n\ta\tVa,\n\tb\tLb,\n\tc\tT-UInt32,\n\td\tPose\n\x7d\nEND",
      deps := ["geometry/Pose"],
      slotsAfter := ["a", "b", "c", "d"] } (by decide)).1

/-- Claim C7: a field named exactly "type" gets "-<notation type>" appended
(the suffixed name is then compared, so no further "-field" suffix fires in
that case unless it collides); any other field whose name equals its notation
type case-insensitively gets "-field" appended; a field named type of
notation type T-Int32 is emitted as type-T-Int32, shown end to end. -/
theorem c7_field_renaming :
    (∀ ty : String, renameSlot "type" ty = "type-" ++ ty ∨
        renameSlot "type" ty = ("type-" ++ ty) ++ "-field") ∧
    (∀ n ty : String, n ≠ "type" → pyLower n = pyLower ty →
        renameSlot n ty = n ++ "-field") ∧
    renameSlot "type" "T-Int32" = "type-T-Int32" ∧
    process_core "M" [("type", "int32")] =
      some { text := "M-Types DEFINITIONS ::=\nBEGIN\nIMPORTS T-Int32 FROM TASTE-BasicTypes ;\nM::=\nSEQUENCE\n\x7b\n\ttype-T-Int32\tT-Int32\n\x7d\nEND",
             deps := [],
             slotsAfter := ["type-T-Int32"] } := by
  refine ⟨?_, ?_, by decide, by decide⟩
  · intro ty
    have hdef : renameSlot "type" ty =
        if pyLower ("type-" ++ ty) = pyLower ty then ("type-" ++ ty) ++ "-field"
        else "type-" ++ ty := rfl
    rw [hdef]
    by_cases h : pyLower ("type-" ++ ty) = pyLower ty
    · right; rw [if_pos h]
    · left; rw [if_neg h]
  · intro n ty hne hlow
    have hdef : renameSlot n ty =
        if pyLower (if n = "type" then n ++ "-" ++ ty else n) = pyLower ty
        then (if n = "type" then n ++ "-" ++ ty else n) ++ "-field"
        else (if n = "type" then n ++ "-" ++ ty else n) := rfl
    rw [hdef, if_neg hne, if_pos hlow]

theorem c7_field_renaming_witness :
    renameSlot "T-Int32" "T-Int32" = "T-Int32" ++ "-field" :=
  c7_field_renaming.2.1 "T-Int32" "T-Int32" (by decide) (by decide)

/-- Claim C8: when the first popped name fails to translate, the loop halts
immediately via sys.exit(ErrorCodes.ARGS_ERROR.value), a non-zero status
distinct from OK, leaving the remaining pending names untranslated and the
generated list as it was; and when process_msg succeeds on every name, a
terminating run falls through the loop with exit status 0. -/
theorem c8_exit_status (proc : String → Option (String × List String))
    (fuel : Nat) (msg : String) (rest gen : List String) (hfail : proc msg = none) :
    runWorklist proc (fuel + 1) (msg :: rest) gen =
      some (.err ErrorCodes.ARGS_ERROR msg rest gen) ∧
    ErrorCodes.ARGS_ERROR ≠ ErrorCodes.OK ∧
    (∀ (proc2 : String → Option (String × List String)),
        (∀ m, (proc2 m).isSome = true) →
        ∀ (fuel2 : Nat) (pending gen2 : List String) (r : RunResult),
          runWorklist proc2 fuel2 pending gen2 = some r →
          r.exitCode = ErrorCodes.OK ∧ ∃ g, r = RunResult.ok g) := by
  refine ⟨?_, by decide,
    fun proc2 ht fuel2 pending gen2 r h => runWorklist_ok_of_total proc2 ht fuel2 pending gen2 r h⟩
  simp [runWorklist, hfail]

theorem c8_exit_status_witness :
    runWorklist (fun _ => (none : Option (String × List String))) 3 ["X", "Y"] [] =
      some (.err ErrorCodes.ARGS_ERROR "X" ["Y"] []) :=
  (c8_exit_status (fun _ => none) 2 "X" ["Y"] [] rfl).1

/-- Claim C9 is contradicted by the code: process_msg renames colliding field
names by assigning slots[i] in place, and the slots list is the very list
taken from the resolved message metadata (msg_dict["slots"] aliases the
message class's slot list), so the record's field-name sequence after
translating the single field ("type", "int32") is ["type-T-Int32"], not the
original ["type"]. -/
theorem c9_slots_mutation :
    process_core "M" [("type", "int32")] =
      some { text := "M-Types DEFINITIONS ::=\nBEGIN\nIMPORTS T-Int32 FROM TASTE-BasicTypes ;\nM::=\nSEQUENCE\n\x7b\n\ttype-T-Int32\tT-Int32\n\x7d\nEND",
             deps := [],
             slotsAfter := ["type-T-Int32"] } ∧
    (["type-T-Int32"] : List String) ≠ ["type"] := by decide

/-- Claim C10: a record with zero fields translates successfully to a module
whose import section is the empty clause "IMPORTS ;", whose body is the
multi-field structure with no fields, and whose dependency list is empty. -/
theorem c10_empty_record :
    generate_libraries_string [] = "IMPORTS ;\n" ∧
    process_core "Empty" [] =
      some { text := "Empty-Types DEFINITIONS ::=\nBEGIN\nIMPORTS ;\nEmpty::=\nSEQUENCE\n\x7b\n\n\x7d\nEND",
             deps := [],
             slotsAfter := [] } := by decide

end RosToAsn1
